import Mathlib

/-!
# Verification of the solar-energy ETL pipeline

Shallow embedding of `src/preprocessing.py` and `src/plotting.py` of the
repository `analise-de-energia-solar-H2`, together with proofs of the
specification claims.

Modelling choices:
* A pandas `DataFrame` is a column-name list plus a list of rows; each row is
  an index label together with an association list from column name to a
  rational value (Python floats are modelled by `ℚ`).
* The filesystem and the interactive prompt are captured by an `Env` record:
  the listing of the source directory (`os.listdir`), the raw content that
  `pd.read_csv` returns for each path, whether the deterministic output file
  exists, the content of that cached CSV, the answer typed at the prompt, and
  the timestamp parser used by `pd.to_datetime` (an external library routine,
  modelled as a fallible function).
* Side effects (source-file reads, directory creation, CSV writes) are
  returned explicitly as an ordered `Effect` list; an exception is an
  `Except.error` carrying the Python exception message, paired with the
  effects already performed when it was raised.
-/

/-- A pandas DataFrame: ordered column labels and ordered rows.  Each row is
an index label (of type `ι`) with its cells as an association list from
column name to numeric value.  A column name absent from a row's cells
models a NaN produced by column alignment. -/
structure DataFrame (ι : Type) where
  cols : List String
  rows : List (ι × List (String × ℚ))
deriving DecidableEq, Repr

/-- `leadsWith pat s` : `pat` is an initial segment of `s`. -/
def leadsWith : List Char → List Char → Bool
  | [], _ => true
  | _ :: _, [] => false
  | a :: as, b :: bs => a = b && leadsWith as bs

/-- `hasSub pat s` : `pat` occurs contiguously inside `s`. -/
def hasSub (pat : List Char) : List Char → Bool
  | [] => leadsWith pat []
  | c :: rest => leadsWith pat (c :: rest) || hasSub pat rest

/-- Python's `pat in s` on strings: substring containment. -/
def strContains (s pat : String) : Bool :=
  hasSub pat.toList s.toList

/-- `os.path.join(a, b)` for a relative `b`. -/
def joinPath (a b : String) : String := a ++ "/" ++ b

/-- `list_files` from `src/preprocessing.py` (lines 22-23): join every entry
of the directory listing with the directory path, then keep the paths whose
full path string contains `dataset_name`. -/
def list_files (listing : List String) (directory : String)
    (dataset_name : String) : List String :=
  let files := listing.map (fun file => joinPath directory file)
  files.filter (fun file_path => strContains file_path dataset_name)

/-- `df.rename(columns={old: new})`: rename a column label (the cell keys
follow the label). -/
def renameCol (old new : String) (df : DataFrame ι) : DataFrame ι :=
  { cols := df.cols.map (fun c => if c = old then new else c)
    rows := df.rows.map (fun r =>
      (r.1, r.2.map (fun cell => (if cell.1 = old then new else cell.1, cell.2)))) }

/-- Elementwise map over every numeric cell of every column (`df /= 1000`,
`df *= c`, `df.map f`). -/
def mapValues (f : ℚ → ℚ) (df : DataFrame ι) : DataFrame ι :=
  { cols := df.cols
    rows := df.rows.map (fun r => (r.1, r.2.map (fun cell => (cell.1, f cell.2)))) }

/-- Parse every index label, all-or-nothing: `pd.to_datetime(df.index, ...)`
succeeds only when every label parses. -/
def parseIndex (p : String → Option κ) :
    List (String × List (String × ℚ)) → Option (List (κ × List (String × ℚ)))
  | [] => some []
  | (s, cells) :: rest =>
    match p s, parseIndex p rest with
    | some t, some rs => some ((t, cells) :: rs)
    | _, _ => none

/-- `pd.to_datetime(df.index, format="%d/%m/%y %H:%M")` applied to the index
of a string-indexed frame; the parser `p` models the library's fixed-format
timestamp parser. -/
def toDatetime (p : String → Option κ) (df : DataFrame String) :
    Option (DataFrame κ) :=
  (parseIndex p df.rows).map (fun rs => { cols := df.cols, rows := rs })

/-- `read_and_format_data` from `src/preprocessing.py` (lines 42-51), applied
to the table `pd.read_csv` produced: rename `kW` to `Energy`, divide every
cell by 1000, replace negative cells by 0, parse the index as timestamps
(raising on any non-matching entry). -/
def read_and_format_data (p : String → Option κ) (raw : DataFrame String) :
    Except String (DataFrame κ) :=
  let df := renameCol "kW" "Energy" raw
  let df := mapValues (fun x => x / 1000) df
  let df := mapValues (fun x => if x < 0 then 0 else x) df
  match toDatetime p df with
  | some out => .ok out
  | none => .error "time data does not match format"

/-- Python's `str.upper()` for the ASCII answers the prompt compares
against: upper-case every character. -/
def String.upper (s : String) : String := String.mk (s.data.map Char.toUpper)

/-- `check_file_processing` from `src/preprocessing.py` (lines 68-78):
`outputExists` is `os.path.exists(file_path)`; when the file exists, the
prompt answer is read and compared after `.upper()`. -/
def check_file_processing (outputExists : Bool) (user_response : String) :
    Except String Bool :=
  if outputExists then
    if user_response.upper = "S" then .ok true
    else if user_response.upper = "N" then .ok false
    else .error "Por favor, insira uma resposta válida (S/N)"
  else .ok true

instance {ε α : Type} [DecidableEq ε] [DecidableEq α] :
    DecidableEq (Except ε α) := fun a b =>
  match a, b with
  | .ok a, .ok b => decidable_of_iff (a = b) (by simp)
  | .error a, .error b => decidable_of_iff (a = b) (by simp)
  | .ok _, .error _ => isFalse (by simp)
  | .error _, .ok _ => isFalse (by simp)

/-- An observable filesystem side effect of `compile_data`. -/
inductive Effect where
  | readFile (path : String)
  | makedirs (path : String)
  | writeCSV (path : String)
deriving DecidableEq, Repr

/-- The world as seen by one `compile_data` call. -/
structure Env (κ : Type) where
  /-- `os.getcwd()`. -/
  cwd : String
  /-- `os.listdir(directory)` for the source directory, in listing order. -/
  listing : List String
  /-- The table `pd.read_csv(path, skiprows=11, sep=";", encoding="latin-1",
  index_col=0, decimal=",")` yields for each source path. -/
  readRaw : String → DataFrame String
  /-- `os.path.exists(output_file)` for the deterministic output path. -/
  outputExists : Bool
  /-- The table `pd.read_csv(output_file, index_col=0, parse_dates=True)`
  yields for the existing output CSV. -/
  cachedCSV : DataFrame κ
  /-- The answer typed at the interactive prompt. -/
  userResponse : String
  /-- The fixed-format timestamp parser used by `pd.to_datetime`. -/
  parseTs : String → Option κ

/-- Parse every located file in order, recording one read effect per file
actually opened; a parse failure aborts the loop (the failing file was
already read). -/
def parseAll (readRaw : String → DataFrame String) (p : String → Option κ) :
    List String → List Effect × Except String (List (DataFrame κ))
  | [] => ([], .ok [])
  | f :: fs =>
    match read_and_format_data p (readRaw f) with
    | .error e => ([Effect.readFile f], .error e)
    | .ok d =>
      let (effs, rest) := parseAll readRaw p fs
      (Effect.readFile f :: effs, rest.map (fun ds => d :: ds))

/-- Union of column lists in order of first appearance (pandas column
alignment for `pd.concat` with `sort=False`). -/
def unionCols (ls : List (List String)) : List String :=
  ls.flatten.foldl (fun acc c => if c ∈ acc then acc else acc ++ [c]) []

/-- `pd.concat(data_frames, axis=0)`: raises `ValueError` on an empty list,
otherwise appends all rows in order under the aligned column set. -/
def concat (dfs : List (DataFrame ι)) : Except String (DataFrame ι) :=
  match dfs with
  | [] => .error "No objects to concatenate"
  | _ :: _ => .ok { cols := unionCols (dfs.map DataFrame.cols)
                    rows := (dfs.map DataFrame.rows).flatten }

/-- `compile_data` from `src/preprocessing.py` (lines 81-143).  Returns the
ordered effect list together with either the resulting table or the raised
exception's message. -/
def compile_data (env : Env κ) (directory : String) (dataset_name : String)
    (transformer_loss transmission_loss : ℚ) (save_data : Bool) :
    List Effect × Except String (DataFrame κ) :=
  let output_dir := joinPath (joinPath env.cwd "data") "output"
  let output_file := joinPath output_dir ("dados_compilados_" ++ dataset_name ++ ".csv")
  match check_file_processing env.outputExists env.userResponse with
  | .error e => ([], .error e)
  | .ok false => ([Effect.readFile output_file], .ok env.cachedCSV)
  | .ok true =>
    match parseAll env.readRaw env.parseTs (list_files env.listing directory dataset_name) with
    | (effs, .error e) => (effs, .error e)
    | (effs, .ok data_frames) =>
      match concat data_frames with
      | .error e => (effs, .error e)
      | .ok compiled_df =>
        let compiled := mapValues
          (fun x => x * ((1 - transformer_loss) * (1 - transmission_loss))) compiled_df
        if save_data then
          (effs ++ [Effect.makedirs output_dir, Effect.writeCSV output_file], .ok compiled)
        else
          (effs, .ok compiled)

/-- All numeric cell values of a frame, row by row, in order. -/
def DataFrame.vals (df : DataFrame ι) : List (List ℚ) :=
  df.rows.map (fun r => r.2.map Prod.snd)

/-- The value a row's cells hold for column `c`; a missing key models a NaN,
which pandas aggregation treats as 0 (`skipna=True`). -/
def cellVal (c : String) (cells : List (String × ℚ)) : ℚ :=
  match cells.lookup c with
  | some v => v
  | none => 0

/-- The distinct group keys of `df.groupby(key)`, sorted ascending as pandas
does by default (`sort=True`). -/
def groupKeys (key : κ → Int) (df : DataFrame κ) : List Int :=
  List.insertionSort (· ≤ ·) ((df.rows.map (fun r => key r.1)).dedup)

/-- `data.groupby(data.index.year).sum()` from `src/plotting.py` (line 60):
one row per distinct year (ascending), each cell the columnwise sum over the
year's rows. -/
def groupSum (key : κ → Int) (df : DataFrame κ) : DataFrame Int :=
  { cols := df.cols
    rows := (groupKeys key df).map (fun y =>
      (y, df.cols.map (fun c =>
        (c, ((df.rows.filter (fun r => key r.1 = y)).map
              (fun r => cellVal c r.2)).sum)))) }

/-- `df.nlargest(n, col)`: raises a `KeyError` naming the column when it is
absent; otherwise the first `n` rows after a stable descending sort on the
column. -/
def nlargest (n : Nat) (col : String) (df : DataFrame Int) :
    Except String (DataFrame Int) :=
  if col ∈ df.cols then
    .ok { cols := df.cols
          rows := (List.insertionSort
            (fun a b => cellVal col b.2 ≤ cellVal col a.2) df.rows).take n }
  else .error col

/-- `plot_top_years` from `src/plotting.py` (lines 47-78), reduced to the
table it renders: group by calendar year, sum, keep the `top_n` rows with
the largest `Energy`.  The chart calls themselves are pure library
rendering and carry no further data transformation.  `yearOf` models
`data.index.year`. -/
def plot_top_years (data : DataFrame κ) (yearOf : κ → Int) (top_n : Nat) :
    Except String (DataFrame Int) :=
  let energy_by_year := groupSum yearOf data
  nlargest top_n "Energy" energy_by_year

/-! ## Helper lemmas -/

theorem vals_mapValues (f : ℚ → ℚ) (df : DataFrame ι) :
    (mapValues f df).vals = df.vals.map (List.map f) := by
  simp [mapValues, DataFrame.vals, List.map_map, Function.comp_def]

theorem vals_renameCol (o n : String) (df : DataFrame ι) :
    (renameCol o n df).vals = df.vals := by
  simp [renameCol, DataFrame.vals, List.map_map, Function.comp_def]

theorem parseIndex_snd (p : String → Option κ)
    (rows : List (String × List (String × ℚ))) (rs : List (κ × List (String × ℚ)))
    (h : parseIndex p rows = some rs) :
    rs.map Prod.snd = rows.map Prod.snd := by
  induction rows generalizing rs with
  | nil => simp [parseIndex] at h; simp [← h]
  | cons r rest ih =>
    obtain ⟨s, cells⟩ := r
    simp only [parseIndex] at h
    cases hp : p s with
    | none => rw [hp] at h; exact absurd h (by simp)
    | some t =>
      rw [hp] at h
      cases hr : parseIndex p rest with
      | none => rw [hr] at h; exact absurd h (by simp)
      | some rs' =>
        rw [hr] at h
        simp only [Option.some.injEq] at h
        subst h
        simp [ih rs' hr]

theorem vals_toDatetime (p : String → Option κ) (df : DataFrame String)
    (out : DataFrame κ) (h : toDatetime p df = some out) :
    out.vals = df.vals := by
  simp only [toDatetime, Option.map_eq_some'] at h
  obtain ⟨rs, hrs, hout⟩ := h
  subst hout
  simp only [DataFrame.vals]
  rw [show (List.map (fun r => List.map Prod.snd r.2) rs) =
        (rs.map Prod.snd).map (List.map Prod.snd) by simp [List.map_map],
      show (List.map (fun r => List.map Prod.snd r.2) df.rows) =
        (df.rows.map Prod.snd).map (List.map Prod.snd) by simp [List.map_map],
      parseIndex_snd p df.rows rs hrs]

theorem clamp_eq_max (x : ℚ) : (if x < 0 then 0 else x) = max 0 x := by
  rcases lt_or_le x 0 with h | h
  · simp [h, max_eq_left h.le]
  · simp [not_lt.mpr h, max_eq_right h]

theorem check_fresh (b : Bool) (r : String)
    (h : b = false ∨ r.upper = "S") :
    check_file_processing b r = .ok true := by
  rcases h with h | h
  · simp [check_file_processing, h]
  · cases b <;> simp [check_file_processing, h]

theorem parseAll_effects (readRaw : String → DataFrame String)
    (p : String → Option κ) (fs : List String) :
    ∀ e ∈ (parseAll readRaw p fs).1, ∃ q, e = Effect.readFile q := by
  induction fs with
  | nil => simp [parseAll]
  | cons f rest ih =>
    intro e he
    simp only [parseAll] at he
    cases hr : read_and_format_data (κ := κ) p (readRaw f) with
    | error err =>
      rw [hr] at he
      simp at he
      exact ⟨f, he⟩
    | ok d =>
      rw [hr] at he
      simp at he
      rcases he with he | he
      · exact ⟨f, he⟩
      · exact ih e he

theorem concat_rows (dfs : List (DataFrame ι)) (c : DataFrame ι)
    (h : concat dfs = .ok c) :
    c.rows = (dfs.map DataFrame.rows).flatten := by
  cases dfs with
  | nil => exact absurd h (by simp [concat])
  | cons d ds =>
    simp only [concat] at h
    cases h
    rfl

/-! ## Claims -/

/-- **C2.**  For every parsed input file, each numeric cell of the Formatted
Table equals `max 0 (raw / 1000)` — division by 1000 followed by replacing
negatives with 0 — applied elementwise to every column (the statement ranges
over all cells of all columns, not only `Energy`). -/
theorem parser_clamp_div_law (p : String → Option κ) (raw : DataFrame String)
    (out : DataFrame κ) (h : read_and_format_data p raw = .ok out) :
    out.vals = raw.vals.map (List.map (fun x => max 0 (x / 1000))) := by
  simp only [read_and_format_data] at h
  cases hd : toDatetime p
      (mapValues (fun x => if x < 0 then 0 else x)
        (mapValues (fun x => x / 1000) (renameCol "kW" "Energy" raw))) with
  | none => rw [hd] at h; exact absurd h (by simp)
  | some d =>
    rw [hd] at h
    simp only [Except.ok.injEq] at h
    subst h
    rw [vals_toDatetime _ _ _ hd, vals_mapValues, vals_mapValues, vals_renameCol,
      List.map_map]
    have : (List.map (fun x : ℚ => if x < 0 then 0 else x) ∘
        List.map (fun x : ℚ => x / 1000)) = List.map (fun x => max 0 (x / 1000)) := by
      funext l
      simp [List.map_map, Function.comp_def, clamp_eq_max]
    rw [this]

/-- A concrete timestamp parser for witnesses: the two index labels used in
the witness tables. -/
def pW : String → Option Nat :=
  fun s => if s = "3" then some 3 else if s = "4" then some 4 else none

/-- **C2 witness.**  A raw `kW` cell of `-5` becomes `0` after parsing (not
`-0.005`), and a positive cell is divided by 1000. -/
theorem parser_clamp_div_law_wit :
    (DataFrame.mk ["Energy"] [((3 : Nat), [("Energy", (0 : ℚ))]),
      ((4 : Nat), [("Energy", (2 : ℚ))])]).vals =
    (DataFrame.mk ["kW"] [("3", [("kW", (-5 : ℚ))]),
      ("4", [("kW", (2000 : ℚ))])]).vals.map
        (List.map (fun x => max 0 (x / 1000))) :=
  parser_clamp_div_law pW _ _
    (by norm_num +decide [read_and_format_data, renameCol, mapValues, toDatetime,
      parseIndex, pW])

/-- **C4 counterexample.**  The claim says the File Locator returns exactly
the entries whose *file name* contains the filter, and an empty list when no
entry's name contains it.  But `list_files` filters on the *joined path*: in
directory `"Solcast_data"` the entry `"panel.csv"` — whose name does not
contain `"Solcast"` — is returned, so the result is not the empty list the
claim demands. -/
theorem list_files_name_only_cex :
    list_files ["panel.csv"] "Solcast_data" "Solcast" = ["Solcast_data/panel.csv"] ∧
    strContains "panel.csv" "Solcast" = false := by
  constructor
  · rfl
  · rfl

/-- **C4 (amended).**  For every directory listing and filter string, the
File Locator returns exactly those entries whose *full joined path* contains
the filter string, in directory-listing order (a sublist of the joined
listing), and returns an empty list when no entry's full path contains the
filter. -/
theorem list_files_path_contains (listing : List String) (dir pat : String) :
    (∀ q, q ∈ list_files listing dir pat ↔
      ∃ e ∈ listing, q = joinPath dir e ∧ strContains q pat = true) ∧
    (list_files listing dir pat).Sublist (listing.map (joinPath dir)) ∧
    ((∀ e ∈ listing, strContains (joinPath dir e) pat = false) →
      list_files listing dir pat = []) := by
  refine ⟨fun q => ?_, ?_, fun h => ?_⟩
  · simp only [list_files, List.mem_filter, List.mem_map]
    constructor
    · rintro ⟨⟨e, he, rfl⟩, hc⟩
      exact ⟨e, he, rfl, hc⟩
    · rintro ⟨e, he, rfl, hc⟩
      exact ⟨⟨e, he, rfl⟩, hc⟩
  · exact List.filter_sublist _
  · refine List.filter_eq_nil_iff.mpr ?_
    intro q hq
    obtain ⟨e, he, rfl⟩ := List.mem_map.mp hq
    simp [h e he]

/-- **C4 witness.**  The amended membership law applied to a two-entry
listing: the matching entry is in the result, the non-matching one is not. -/
theorem list_files_path_contains_wit :
    ("data/Solcast_a.csv" ∈ list_files ["panel.csv", "Solcast_a.csv"] "data" "Solcast" ↔
      ∃ e ∈ ["panel.csv", "Solcast_a.csv"], "data/Solcast_a.csv" = joinPath "data" e ∧
        strContains "data/Solcast_a.csv" "Solcast" = true) ∧
    ((∀ e ∈ ["panel.csv"], strContains (joinPath "no_match" e) "Solcast" = false) →
      list_files ["panel.csv"] "no_match" "Solcast" = []) :=
  ⟨(list_files_path_contains ["panel.csv", "Solcast_a.csv"] "data" "Solcast").1 _,
   (list_files_path_contains ["panel.csv"] "no_match" "Solcast").2.2⟩

/-- **C5.**  When the deterministic output CSV exists and the answer is `N`
(after upper-casing, hence case-insensitively), `compile_data`
short-circuits: it returns the cached CSV loaded from the output path, its
only effect is that read, and the loss factors, the persist flag and the
source-directory content passed to the call are never consulted (the result
is the same for every `t`, `m`, `sv`). -/
theorem compile_cache_short_circuit (env : Env κ) (dir name : String)
    (t m : ℚ) (sv : Bool) (hex : env.outputExists = true)
    (hn : env.userResponse.upper = "N") :
    compile_data env dir name t m sv =
      ([Effect.readFile (joinPath (joinPath (joinPath env.cwd "data") "output")
        ("dados_compilados_" ++ name ++ ".csv"))], .ok env.cachedCSV) := by
  simp [compile_data, check_file_processing, hex, hn]

/-- **C5 witness.**  A concrete environment whose cache exists, answered
`"n"` (lower case): the cached table comes back unchanged even though loss
factors of 50% are supplied. -/
theorem compile_cache_short_circuit_wit :
    compile_data
      { cwd := "/cwd", listing := ["Solcast_a.csv"],
        readRaw := fun _ => DataFrame.mk ["kW"] [("3", [("kW", (5 : ℚ))])],
        outputExists := true,
        cachedCSV := DataFrame.mk ["Energy"] [((9 : Nat), [("Energy", (7 : ℚ))])],
        userResponse := "n", parseTs := pW }
      "d" "Solcast" (1/2) (1/2) true =
    ([Effect.readFile "/cwd/data/output/dados_compilados_Solcast.csv"],
      .ok (DataFrame.mk ["Energy"] [((9 : Nat), [("Energy", (7 : ℚ))])])) :=
  compile_cache_short_circuit _ _ _ _ _ _ rfl rfl

/-- **C6.**  With the output file present, the prompt accepts exactly the
answers whose upper-casing is `S` (meaning reprocess) or `N` (meaning
reuse); every other answer raises the validation error with its descriptive
message. -/
theorem prompt_accepts_S_N (r : String) :
    (check_file_processing true r = .ok true ↔ r.upper = "S") ∧
    (check_file_processing true r = .ok false ↔ r.upper = "N") ∧
    (r.upper ≠ "S" → r.upper ≠ "N" →
      check_file_processing true r = .error "Por favor, insira uma resposta válida (S/N)") := by
  unfold check_file_processing
  refine ⟨?_, ?_, fun hs hn => ?_⟩ <;> split_ifs <;> simp_all

/-- **C6 witness.**  `"s"` and `"n"` are accepted (case-insensitively) with
the stated meanings, and `"X"` raises the validation error. -/
theorem prompt_accepts_S_N_wit :
    check_file_processing true "s" = .ok true ∧
    check_file_processing true "n" = .ok false ∧
    check_file_processing true "X" = .error "Por favor, insira uma resposta válida (S/N)" :=
  ⟨(prompt_accepts_S_N "s").1.mpr (by decide),
   (prompt_accepts_S_N "n").2.1.mpr (by decide),
   (prompt_accepts_S_N "X").2.2 (by decide) (by decide)⟩

/-- **C7.**  When the output file exists and the answer is invalid (its
upper-casing is neither `S` nor `N`), `compile_data` propagates the
validation error with an *empty* effect list: no source file was read, no
directory created, no file written. -/
theorem invalid_answer_no_side_effects (env : Env κ) (dir name : String)
    (t m : ℚ) (sv : Bool) (hex : env.outputExists = true)
    (hS : env.userResponse.upper ≠ "S") (hN : env.userResponse.upper ≠ "N") :
    compile_data env dir name t m sv =
      ([], .error "Por favor, insira uma resposta válida (S/N)") := by
  simp [compile_data, check_file_processing, hex, hS, hN]

/-- **C7 witness.**  Answering `"X"` on a concrete environment yields the
validation error and no effects. -/
theorem invalid_answer_no_side_effects_wit :
    compile_data
      { cwd := "/cwd", listing := ["Solcast_a.csv"],
        readRaw := fun _ => DataFrame.mk ["kW"] [("3", [("kW", (5 : ℚ))])],
        outputExists := true,
        cachedCSV := DataFrame.mk ["Energy"] [((9 : Nat), [("Energy", (7 : ℚ))])],
        userResponse := "X", parseTs := pW }
      "d" "Solcast" (3/1000) (1/100) true =
    ([], .error "Por favor, insira uma resposta válida (S/N)") :=
  invalid_answer_no_side_effects _ _ _ _ _ _ rfl (by decide) (by decide)

/-- **C10.**  When the deterministic output path does not exist,
`check_file_processing` returns `true` without consulting the response, and
`compile_data` proceeds directly to the fresh compilation: for every typed
response the call behaves exactly as the fresh branch (identical to a run
whose cache exists and was answered `S`). -/
theorem absent_cache_skips_prompt (env : Env κ) (dir name r : String)
    (t m : ℚ) (sv : Bool) (hex : env.outputExists = false) :
    check_file_processing env.outputExists env.userResponse = .ok true ∧
    compile_data { env with userResponse := r } dir name t m sv =
      compile_data { env with outputExists := true, userResponse := "S" } dir name t m sv := by
  constructor
  · simp [check_file_processing, hex]
  · simp [compile_data, check_file_processing, hex,
      show ("S" : String).upper = "S" from by decide]

/-- **C8.**  The Top-N Years renderer fails with a key-lookup error naming
`Energy` whenever the input table lacks an `Energy` column; when the column
is present it returns the table of the `top_n` years of largest summed
`Energy`: at most `top_n` rows (exactly `min top_n` the number of distinct
years), sorted descending by summed `Energy`, each row one of the per-year
sum rows, and maximal — every per-year sum row left out has summed `Energy`
at most that of every selected row. -/
theorem top_years_requires_energy (data : DataFrame κ) (yearOf : κ → Int)
    (n : Nat) :
    ("Energy" ∉ data.cols → plot_top_years data yearOf n = .error "Energy") ∧
    ("Energy" ∈ data.cols → ∃ out, plot_top_years data yearOf n = .ok out ∧
      out.rows.length = min n (groupSum yearOf data).rows.length ∧
      out.rows.Pairwise (fun a b => cellVal "Energy" b.2 ≤ cellVal "Energy" a.2) ∧
      (∀ r ∈ out.rows, r ∈ (groupSum yearOf data).rows) ∧
      (∀ r ∈ out.rows, ∀ s ∈ (groupSum yearOf data).rows, s ∉ out.rows →
        cellVal "Energy" s.2 ≤ cellVal "Energy" r.2)) := by
  have hcols : (groupSum yearOf data).cols = data.cols := rfl
  constructor
  · intro h
    simp [plot_top_years, nlargest, hcols, h]
  · intro h
    haveI ht : IsTotal ((Int × List (String × ℚ)))
        (fun a b => cellVal "Energy" b.2 ≤ cellVal "Energy" a.2) :=
      ⟨fun a b => le_total _ _⟩
    haveI htr : IsTrans ((Int × List (String × ℚ)))
        (fun a b => cellVal "Energy" b.2 ≤ cellVal "Energy" a.2) :=
      ⟨fun _ _ _ hab hbc => le_trans hbc hab⟩
    refine ⟨{ cols := (groupSum yearOf data).cols,
              rows := (List.insertionSort
                (fun a b => cellVal "Energy" b.2 ≤ cellVal "Energy" a.2)
                (groupSum yearOf data).rows).take n }, ?_, ?_, ?_, ?_, ?_⟩
    · simp [plot_top_years, nlargest, hcols, h]
    · simp [List.length_take, List.length_insertionSort]
    · exact (List.sorted_insertionSort _ _).sublist (List.take_sublist _ _)
    · intro r hr
      exact (List.perm_insertionSort _ _).mem_iff.mp
        ((List.take_sublist _ _).subset hr)
    · intro r hr s hs hns
      have hsorted := List.sorted_insertionSort
        (fun a b => cellVal "Energy" b.2 ≤ cellVal "Energy" a.2)
        (groupSum yearOf data).rows
      have hs' : s ∈ List.insertionSort
          (fun a b => cellVal "Energy" b.2 ≤ cellVal "Energy" a.2)
          (groupSum yearOf data).rows :=
        (List.perm_insertionSort _ _).mem_iff.mpr hs
      have htd := List.take_append_drop n (List.insertionSort
          (fun a b => cellVal "Energy" b.2 ≤ cellVal "Energy" a.2)
          (groupSum yearOf data).rows)
      rw [← htd] at hs' hsorted
      rcases List.mem_append.mp hs' with hcase | hcase
      · exact absurd hcase hns
      · exact (List.pairwise_append.mp hsorted).2.2 r hr s hcase

/-- A concrete yearly table for the Top-N witnesses: three distinct years
with summed `Energy` 3, 5 and 4. -/
def dataT : DataFrame Int :=
  DataFrame.mk ["Energy"]
    [((2020 : Int), [("Energy", (1 : ℚ))]), ((2021 : Int), [("Energy", (5 : ℚ))]),
     ((2020 : Int), [("Energy", (2 : ℚ))]), ((2019 : Int), [("Energy", (4 : ℚ))])]

/-- **C8 witness.**  A table without an `Energy` column makes the renderer
fail with the key error, and `dataT` (three distinct years) with `top_n = 2`
yields a two-row descending selection dominating the left-out year. -/
theorem top_years_requires_energy_wit :
    plot_top_years (DataFrame.mk ["Power"] [((2020 : Int), [("Power", (1 : ℚ))])])
      id 2 = .error "Energy" ∧
    (∃ out, plot_top_years dataT id 2 = .ok out ∧
      out.rows.length = min 2 (groupSum id dataT).rows.length ∧
      out.rows.Pairwise (fun a b => cellVal "Energy" b.2 ≤ cellVal "Energy" a.2) ∧
      (∀ r ∈ out.rows, r ∈ (groupSum id dataT).rows) ∧
      (∀ r ∈ out.rows, ∀ s ∈ (groupSum id dataT).rows, s ∉ out.rows →
        cellVal "Energy" s.2 ≤ cellVal "Energy" r.2)) :=
  ⟨(top_years_requires_energy _ id 2).1 (by decide),
   (top_years_requires_energy dataT id 2).2 (by decide)⟩

/-- **C1.**  On every fresh compilation (no cached output, or cache present
and answered `S`), the Compiled Table is exactly the concatenation of the
per-file tables with every value multiplied *once* by
`(1 - transformer_loss) * (1 - transmission_loss)`: the returned table is
`mapValues (· * factor)` of the concatenation, its cell values are the
concatenated cell values each scaled by the factor, the concatenation's
values are the per-file values in order, and a second run of the Compiler
over the same inputs returns the very same result (no double scaling). -/
theorem compile_fresh_single_scaling (env : Env κ) (dir name : String)
    (t m : ℚ) (sv : Bool) (effs : List Effect) (dfs : List (DataFrame κ))
    (c : DataFrame κ)
    (hfresh : env.outputExists = false ∨ env.userResponse.upper = "S")
    (hparse : parseAll env.readRaw env.parseTs (list_files env.listing dir name)
      = (effs, .ok dfs))
    (hconcat : concat dfs = .ok c) :
    (compile_data env dir name t m sv).2 =
      .ok (mapValues (fun x => x * ((1 - t) * (1 - m))) c) ∧
    (mapValues (fun x => x * ((1 - t) * (1 - m))) c).vals =
      c.vals.map (List.map (fun x => x * ((1 - t) * (1 - m)))) ∧
    c.vals = (dfs.map DataFrame.vals).flatten ∧
    compile_data env dir name t m sv = compile_data env dir name t m sv := by
  refine ⟨?_, vals_mapValues _ c, ?_, rfl⟩
  · have hc := check_fresh env.outputExists env.userResponse hfresh
    cases sv <;> simp [compile_data, hc, hparse, hconcat]
  · rw [DataFrame.vals, concat_rows dfs c hconcat, List.map_flatten]
    simp only [List.map_map, Function.comp_def]
    rfl

/-- A concrete fresh-compilation environment for the Compiler witnesses:
one matching source file holding one row with `kW = 5`. -/
def envW : Env Nat :=
  { cwd := "/cwd", listing := ["Solcast_a.csv"],
    readRaw := fun _ => DataFrame.mk ["kW"] [("3", [("kW", (5 : ℚ))])],
    outputExists := false, cachedCSV := DataFrame.mk [] [],
    userResponse := "", parseTs := pW }

/-- The single Formatted Table `envW` produces: `5 kW / 1000 = 1/200`. -/
def dfW : DataFrame Nat :=
  DataFrame.mk ["Energy"] [((3 : Nat), [("Energy", (1/200 : ℚ))])]

theorem envW_parse :
    parseAll envW.readRaw envW.parseTs (list_files envW.listing "d" "Solcast")
      = ([Effect.readFile "d/Solcast_a.csv"], .ok [dfW]) := by
  have hl : list_files envW.listing "d" "Solcast" = ["d/Solcast_a.csv"] := rfl
  rw [hl]
  norm_num +decide [parseAll, read_and_format_data, renameCol, mapValues,
    toDatetime, parseIndex, pW, envW, dfW, Except.map]

theorem envW_concat : concat [dfW] = .ok dfW := rfl

/-- **C1 witness.**  The fresh scaling law applied to `envW` with the
default loss factors. -/
theorem compile_fresh_single_scaling_wit :
    (compile_data envW "d" "Solcast" (3/1000) (1/100) true).2 =
      .ok (mapValues (fun x => x * ((1 - 3/1000) * (1 - 1/100))) dfW) ∧
    (mapValues (fun x => x * ((1 - 3/1000) * (1 - 1/100))) dfW).vals =
      dfW.vals.map (List.map (fun x => x * ((1 - 3/1000) * (1 - 1/100)))) ∧
    dfW.vals = ([dfW].map DataFrame.vals).flatten ∧
    compile_data envW "d" "Solcast" (3/1000) (1/100) true =
      compile_data envW "d" "Solcast" (3/1000) (1/100) true :=
  compile_fresh_single_scaling envW "d" "Solcast" (3/1000) (1/100) true _ _ dfW
    (Or.inl rfl) envW_parse envW_concat

/-- **C3.**  On every fresh compilation over a non-empty list of matching
files, the Compiled Table has exactly the rows of the per-file Formatted
Tables: its row count is the sum of the per-file row counts and its index
labels are the per-file index labels concatenated in directory-listing
order — nothing is deduplicated. -/
theorem compile_fresh_row_preservation (env : Env κ) (dir name : String)
    (t m : ℚ) (sv : Bool) (effs : List Effect) (dfs : List (DataFrame κ))
    (c : DataFrame κ)
    (hfresh : env.outputExists = false ∨ env.userResponse.upper = "S")
    (hparse : parseAll env.readRaw env.parseTs (list_files env.listing dir name)
      = (effs, .ok dfs))
    (hconcat : concat dfs = .ok c) :
    ∃ out, (compile_data env dir name t m sv).2 = .ok out ∧
      out.rows.length = (dfs.map (fun d => d.rows.length)).sum ∧
      out.rows.map Prod.fst = (dfs.map (fun d => d.rows.map Prod.fst)).flatten := by
  refine ⟨mapValues (fun x => x * ((1 - t) * (1 - m))) c, ?_, ?_, ?_⟩
  · have hc := check_fresh env.outputExists env.userResponse hfresh
    cases sv <;> simp [compile_data, hc, hparse, hconcat]
  · simp only [mapValues, List.length_map, concat_rows dfs c hconcat,
      List.length_flatten, List.map_map, Function.comp_def]
  · simp only [mapValues, List.map_map, Function.comp_def,
      concat_rows dfs c hconcat, List.map_flatten]

/-- **C3 witness.**  Row preservation on the concrete environment `envW`. -/
theorem compile_fresh_row_preservation_wit :
    ∃ out, (compile_data envW "d" "Solcast" (3/1000) (1/100) false).2 = .ok out ∧
      out.rows.length = ([dfW].map (fun d => d.rows.length)).sum ∧
      out.rows.map Prod.fst = ([dfW].map (fun d => d.rows.map Prod.fst)).flatten :=
  compile_fresh_row_preservation envW "d" "Solcast" (3/1000) (1/100) false _ _ dfW
    (Or.inl rfl) envW_parse envW_concat

/-- **C9.**  On a fresh compilation, with the persist flag set the Compiler
first creates the output directory and then writes the output CSV (exactly
those two effects beyond the source reads, in that order); with the flag
unset its effects are the source reads only — no directory is created and
no file written; and both runs return the very same Compiled Table. -/
theorem save_flag_controls_persistence (env : Env κ) (dir name : String)
    (t m : ℚ) (effs : List Effect) (dfs : List (DataFrame κ)) (c : DataFrame κ)
    (hfresh : env.outputExists = false ∨ env.userResponse.upper = "S")
    (hparse : parseAll env.readRaw env.parseTs (list_files env.listing dir name)
      = (effs, .ok dfs))
    (hconcat : concat dfs = .ok c) :
    compile_data env dir name t m true =
      (effs ++ [Effect.makedirs (joinPath (joinPath env.cwd "data") "output"),
        Effect.writeCSV (joinPath (joinPath (joinPath env.cwd "data") "output")
          ("dados_compilados_" ++ name ++ ".csv"))],
        .ok (mapValues (fun x => x * ((1 - t) * (1 - m))) c)) ∧
    compile_data env dir name t m false =
      (effs, .ok (mapValues (fun x => x * ((1 - t) * (1 - m))) c)) ∧
    (∀ e ∈ effs, ∃ q, e = Effect.readFile q) := by
  have hc := check_fresh env.outputExists env.userResponse hfresh
  refine ⟨?_, ?_, ?_⟩
  · simp [compile_data, hc, hparse, hconcat]
  · simp [compile_data, hc, hparse, hconcat]
  · intro e he
    refine parseAll_effects env.readRaw env.parseTs
      (list_files env.listing dir name) e ?_
    rw [hparse]
    exact he

/-- **C9 witness.**  The frame condition on the concrete environment `envW`:
saving appends exactly the directory creation and the CSV write, not saving
performs reads only. -/
theorem save_flag_controls_persistence_wit :
    compile_data envW "d" "Solcast" (3/1000) (1/100) true =
      ([Effect.readFile "d/Solcast_a.csv"] ++
        [Effect.makedirs (joinPath (joinPath envW.cwd "data") "output"),
         Effect.writeCSV (joinPath (joinPath (joinPath envW.cwd "data") "output")
           ("dados_compilados_" ++ "Solcast" ++ ".csv"))],
        .ok (mapValues (fun x => x * ((1 - 3/1000) * (1 - 1/100))) dfW)) ∧
    compile_data envW "d" "Solcast" (3/1000) (1/100) false =
      ([Effect.readFile "d/Solcast_a.csv"],
        .ok (mapValues (fun x => x * ((1 - 3/1000) * (1 - 1/100))) dfW)) ∧
    (∀ e ∈ [Effect.readFile "d/Solcast_a.csv"], ∃ q, e = Effect.readFile q) :=
  save_flag_controls_persistence envW "d" "Solcast" (3/1000) (1/100) _ _ dfW
    (Or.inl rfl) envW_parse envW_concat

/-- **C10 witness.**  A concrete environment without a cache: the prompt
answer is irrelevant and the fresh branch runs. -/
theorem absent_cache_skips_prompt_wit :
    check_file_processing
      (Env.outputExists (κ := Nat)
        { cwd := "/cwd", listing := [], readRaw := fun _ => DataFrame.mk [] [],
          outputExists := false, cachedCSV := DataFrame.mk [] [],
          userResponse := "whatever", parseTs := pW })
      "whatever" = .ok true :=
  (absent_cache_skips_prompt
    { cwd := "/cwd", listing := [], readRaw := fun _ => DataFrame.mk [] [],
      outputExists := false, cachedCSV := DataFrame.mk [] [],
      userResponse := "whatever", parseTs := pW }
    "d" "Solcast" "x" 0 0 false rfl).1
